import Mathlib

/-!
Verification of the MAX7219 LED-display driver crate (files src/lib.rs and
src/connectors.rs) against its natural-language specification.

The Rust code is shallowly embedded:
* bytes are `Nat` (all values written stay below 256 in the source, no
  wrap-around arithmetic occurs anywhere in the embedded fragment);
* the frame buffer is a `List Nat`; a Rust indexing operation that would
  panic out of bounds is modelled by `Option` (`none` = panic);
* each call of `write_raw_byte` / `write_raw` is recorded as one `RW`
  record (address, register header, data byte); a driver operation is a
  function from the cached decode mode to the new cached decode mode
  together with the list of `RW` writes it issues on its success path
  (a transport error aborts the Rust operation early; the traces below
  are those of error-free executions);
* fallible construction is `Except DataError`.
-/

/-- Error type of src/lib.rs (`DataError`): SPI or pin failure. -/
inductive DataError
  | Spi
  | Pin
deriving DecidableEq

/-- Decode modes of src/lib.rs (`DecodeMode`). -/
inductive DecodeMode
  | NoDecode
  | CodeBDigit0
  | CodeBDigits3_0
  | CodeBDigits7_0
deriving DecidableEq

/-- The `repr(u8)` value of each decode mode. -/
def DecodeMode.toByte : DecodeMode → Nat
  | .NoDecode => 0x00
  | .CodeBDigit0 => 0x01
  | .CodeBDigits3_0 => 0x0F
  | .CodeBDigits7_0 => 0xFF

/-- Command registers of src/lib.rs (`Command`). -/
inductive Command
  | Noop
  | Digit0
  | Digit1
  | Digit2
  | Digit3
  | Digit4
  | Digit5
  | Digit6
  | Digit7
  | DecodeMode
  | Intensity
  | ScanLimit
  | Power
  | DisplayTest
deriving DecidableEq

/-- The `repr(u8)` value of each command register. -/
def Command.toByte : Command → Nat
  | .Noop => 0x00
  | .Digit0 => 0x01
  | .Digit1 => 0x02
  | .Digit2 => 0x03
  | .Digit3 => 0x04
  | .Digit4 => 0x05
  | .Digit5 => 0x06
  | .Digit6 => 0x07
  | .Digit7 => 0x08
  | .DecodeMode => 0x09
  | .Intensity => 0x0A
  | .ScanLimit => 0x0B
  | .Power => 0x0C
  | .DisplayTest => 0x0F

/-- One register write issued through the connector: one call of
`write_raw_byte(addr, header, data)` in src/lib.rs, i.e. one transmitted
frame. -/
structure RW where
  addr : Nat
  header : Nat
  data : Nat
deriving DecidableEq

/-- Rust array store `buffer[i] = v`: out-of-bounds indexing panics,
modelled as `none`. -/
def setAt (l : List Nat) (i v : Nat) : Option (List Nat) :=
  if i < l.length then some (l.set i v) else none

/-- The zeroed frame buffer of `MAX7219::write_raw_byte`:
`let mut buffers = [[0; 2]; D]; buffers.as_flattened_mut()`. -/
def frameBuffer (D : Nat) : List Nat :=
  (List.replicate D [0, 0]).flatten

/-- Frame built by `MAX7219::write_raw_byte` (src/lib.rs lines 393-407):
zero the 2·D-byte buffer, store `header` at `addr * 2` and `data` at
`addr * 2 + 1`, then hand the whole buffer to the connector.  `none`
models the panic when the index is out of bounds. -/
def write_raw_frame (D addr header data : Nat) : Option (List Nat) :=
  (setAt (frameBuffer D) (addr * 2) header).bind fun b =>
    setAt b (addr * 2 + 1) data

/-- Modelled from the spec: the constant `MAX_DISPLAYS` is imported by
src/connectors.rs from the crate root but its definition is not among the
given source files; the spec fixes the maximum chain length at 8 devices,
the connector buffer being sized for the maximum chain length
(2 bytes × 8). -/
def MAX_DISPLAYS : Nat := 8

/-- Bytes transmitted by `PinConnector::write_raw` (src/connectors.rs
lines 86-112): zero the fixed `MAX_DISPLAYS * 2` buffer, store `header`
at `addr * 2` and `data` at `addr * 2 + 1`, then shift out
`buffer[0 .. devices * 2]`.  `none` models the panic when the store is
out of bounds of the 16-byte buffer. -/
def pin_write_raw_frame (devices addr header data : Nat) : Option (List Nat) :=
  (setAt (List.replicate (MAX_DISPLAYS * 2) 0) (addr * 2) header).bind fun b =>
    (setAt b (addr * 2 + 1) data).map fun b => b.take (devices * 2)

/-- The BCD translation table `bcd_byte` of src/lib.rs (lines 509-523):
ASCII bytes are matched by their code points; any unmatched byte falls
through to the wildcard arm and is returned unchanged. -/
def bcd_byte (b : Nat) : Nat :=
  match b with
  | 32 => 0xf
  | 45 => 0xa
  | 101 => 0xb
  | 69 => 0x8b
  | 104 => 0xc
  | 72 => 0x8c
  | 108 => 0xd
  | 76 => 0x8d
  | 112 => 0xe
  | 80 => 0x8e
  | _ => b

/-- The segment translation table `ssb_byte` of src/lib.rs (lines
528-578): ASCII bytes matched by code point, wildcard arm yields the
fixed question-mark pattern, and the dot flag sets the top bit. -/
def ssb_byte (b : Nat) (dot : Bool) : Nat :=
  let result :=
    match b with
    | 32 => 0x0
    | 46 => 0x80
    | 45 => 0x1
    | 95 => 0x8
    | 48 => 0x7e
    | 49 => 0x30
    | 50 => 0x6d
    | 51 => 0x79
    | 52 => 0x33
    | 53 => 0x5b
    | 54 => 0x5f
    | 55 => 0x70
    | 56 => 0x7f
    | 57 => 0x7b
    | 97 | 65 => 0x77
    | 98 => 0x1f
    | 99 | 67 => 0x4e
    | 100 => 0x3d
    | 101 | 69 => 0x4f
    | 102 | 70 => 0x47
    | 103 | 71 => 0x5e
    | 104 | 72 => 0x37
    | 105 | 73 => 0x30
    | 106 | 74 => 0x3c
    | 108 | 76 => 0xe
    | 110 | 78 => 0x15
    | 111 | 79 => 0x7e
    | 112 | 80 => 0x67
    | 113 => 0x73
    | 115 | 83 => 0x5b
    | 117 | 85 => 0x3e
    | _ => 0xe5
  if dot then result ||| 0x80 else result

/-- The ASCII bytes with a dedicated (non-wildcard) arm in `ssb_byte`. -/
def ssbDefined : List Nat :=
  [32, 46, 45, 95, 48, 49, 50, 51, 52, 53, 54, 55, 56, 57,
   97, 65, 98, 99, 67, 100, 101, 69, 102, 70, 103, 71, 104, 72,
   105, 73, 106, 74, 108, 76, 110, 78, 111, 79, 112, 80, 113,
   115, 83, 117, 85]

/-- The defined entries of the BCD table per the spec: space, dash,
e/E, h/H, l/L, p/P and the digits 0-9 (the digits are handled by the
pass-through arm of `bcd_byte`). -/
def bcdDefined : List Nat :=
  [32, 45, 101, 69, 104, 72, 108, 76, 112, 80,
   48, 49, 50, 51, 52, 53, 54, 55, 56, 57]

/-- The `while n > 0` loop of `base_10_bytes`, collecting the decimal
digits least-significant first exactly as the Rust loop stores them into
`buf`.  The fuel argument only bounds the iteration count; `n` iterations
always suffice because each step divides `n` by 10. -/
def base_10_loop (fuel n : Nat) : List Nat :=
  match fuel with
  | 0 => []
  | fuel + 1 => if n = 0 then [] else (n % 10 + 48) :: base_10_loop fuel (n / 10)

/-- The decimal digit bytes of `n`, least-significant first. -/
def base_10_digits (n : Nat) : List Nat :=
  base_10_loop n n

/-- `base_10_bytes` of src/lib.rs (lines 583-609): reject values outside
the half-open range `-9999999..99999999` with the literal bytes "Err",
map 0 to "0", and otherwise emit the decimal digits (collected
least-significant first, a trailing '-' for negatives) and reverse. -/
def base_10_bytes (n : Int) : List Nat :=
  if ¬(-9999999 ≤ n ∧ n < 99999999) then [69, 114, 114]
  else if n = 0 then [48]
  else (base_10_digits n.natAbs ++ if n < 0 then [45] else []).reverse

/-- `pad_left` of src/lib.rs (lines 652-663): right-justify `val` in an
8-byte field of ASCII spaces; the Rust `assert` on `val.len() <= 8`
panics otherwise, modelled as `none`. -/
def pad_left (val : List Nat) : Option (List Nat) :=
  if val.length ≤ 8 then some (List.replicate (8 - val.length) 32 ++ val)
  else none

/-- `MAX7219::write_command` (src/lib.rs lines 384-391): a single
`write_raw_byte` carrying the command's byte code. -/
def write_command (addr : Nat) (c : Command) (data : Nat) : List RW :=
  [⟨addr, c.toByte, data⟩]

/-- `MAX7219::set_decode_mode` (src/lib.rs lines 176-188): write the
DecodeMode register and update the cache only when the cached mode
differs from the requested one. -/
def set_decode_mode (dm : DecodeMode) (addr : Nat) (mode : DecodeMode) :
    DecodeMode × List RW :=
  if dm ≠ mode then (mode, write_command addr Command.DecodeMode mode.toByte)
  else (dm, [])

/-- `MAX7219::test` (src/lib.rs lines 344-347). -/
def test (dm : DecodeMode) (addr : Nat) (is_on : Bool) : DecodeMode × List RW :=
  (dm, write_command addr Command.DisplayTest (if is_on then 1 else 0))

/-- `MAX7219::set_intensity` (src/lib.rs lines 159-162). -/
def set_intensity (dm : DecodeMode) (addr intensity : Nat) :
    DecodeMode × List RW :=
  (dm, write_command addr Command.Intensity intensity)

/-- `MAX7219::clear_display` (src/lib.rs lines 118-124): digit registers
1 to 8 are written 0. -/
def clear_display (dm : DecodeMode) (addr : Nat) : DecodeMode × List RW :=
  (dm, (List.range' 1 8).map fun i => ⟨addr, i, 0⟩)

/-- `MAX7219::power_off` (src/lib.rs lines 99-105): Power register of
every device gets 0. -/
def power_off (D : Nat) (dm : DecodeMode) : DecodeMode × List RW :=
  (dm, (List.range D).map fun i => ⟨i, Command.Power.toByte, 0⟩)

/-- The digit loop of `write_str`: the digit register counts down from 8,
the dot mask is probed with the current power of two which then shifts
right. -/
def write_str_loop (addr dots : Nat) : List Nat → Nat → Nat → List RW
  | [], _, _ => []
  | b :: rest, digit, dp =>
    ⟨addr, digit, ssb_byte b (decide (0 < dots &&& dp))⟩ ::
      write_str_loop addr dots rest (digit - 1) (dp >>> 1)

/-- `MAX7219::write_str` (src/lib.rs lines 203-225): save the cached
mode, force NoDecode (note the hard-coded address 0 in the source), write
the segment bytes to digits 8 down to 1, restore the saved mode (again at
address 0). -/
def write_str (dm : DecodeMode) (addr : Nat) (string : List Nat) (dots : Nat) :
    DecodeMode × List RW :=
  let prev_dm := dm
  let r1 := set_decode_mode dm 0 DecodeMode.NoDecode
  let body := write_str_loop addr dots string 8 128
  let r2 := set_decode_mode r1.1 0 prev_dm
  (r2.1, r1.2 ++ body ++ r2.2)

/-- The digit loop of `write_bcd`: digit register counts down from 8. -/
def write_bcd_loop (addr : Nat) : List Nat → Nat → List RW
  | [], _ => []
  | b :: rest, digit => ⟨addr, digit, bcd_byte b⟩ :: write_bcd_loop addr rest (digit - 1)

/-- `MAX7219::write_bcd` (src/lib.rs lines 241-259): save the cached
mode, force CodeBDigits7-0 (hard-coded address 0), write the BCD bytes to
digits 8 down to 1, restore the saved mode (address 0). -/
def write_bcd (dm : DecodeMode) (addr : Nat) (bcd : List Nat) :
    DecodeMode × List RW :=
  let prev_dm := dm
  let r1 := set_decode_mode dm 0 DecodeMode.CodeBDigits7_0
  let body := write_bcd_loop addr bcd 8
  let r2 := set_decode_mode r1.1 0 prev_dm
  (r2.1, r1.2 ++ body ++ r2.2)

/-- The digit loop of `write_digits`: digit register counts up from 1. -/
def write_digits_loop (addr : Nat) : List Nat → Nat → List RW
  | [], _ => []
  | b :: rest, digit => ⟨addr, digit, b⟩ :: write_digits_loop addr rest (digit + 1)

/-- `MAX7219::write_digits` (src/lib.rs lines 313-330): save the cached
mode, force NoDecode (hard-coded address 0), write the raw bytes to
digits 1 up to 8, restore the saved mode (address 0). -/
def write_digits (dm : DecodeMode) (addr : Nat) (raw : List Nat) :
    DecodeMode × List RW :=
  let prev_dm := dm
  let r1 := set_decode_mode dm 0 DecodeMode.NoDecode
  let body := write_digits_loop addr raw 1
  let r2 := set_decode_mode r1.1 0 prev_dm
  (r2.1, r1.2 ++ body ++ r2.2)

/-- `MAX7219::write_integer` (src/lib.rs lines 273-279): format the value
in base 10, pad to the 8-byte field, delegate to `write_str` with no
dots.  `none` is the (never reached) `pad_left` panic. -/
def write_integer (dm : DecodeMode) (addr : Nat) (value : Int) :
    Option (DecodeMode × List RW) :=
  (pad_left (base_10_bytes value)).map fun buf => write_str dm addr buf 0

/-- One iteration of the `init` loop (src/lib.rs lines 357-368):
test off, scan limit 7, `set_decode_mode(i, NoDecode)`, clear display. -/
def init_device (dm : DecodeMode) (i : Nat) : DecodeMode × List RW :=
  let r1 := test dm i false
  let w2 := write_command i Command.ScanLimit 0x07
  let r3 := set_decode_mode r1.1 i DecodeMode.NoDecode
  let r4 := clear_display r3.1 i
  (r4.1, r1.2 ++ w2 ++ r3.2 ++ r4.2)

/-- `MAX7219::init` (src/lib.rs lines 357-368): the per-device loop in
ascending address order, then `power_off` for all devices. -/
def init (D : Nat) (dm : DecodeMode) : DecodeMode × List RW :=
  let r := (List.range D).foldl
    (fun acc i => let s := init_device acc.1 i; (s.1, acc.2 ++ s.2)) (dm, [])
  let p := power_off D r.1
  (p.1, r.2 ++ p.2)

/-- `MAX7219::new` (src/lib.rs lines 350-355): store the connector, cache
decode mode NoDecode, issue no writes, return Ok unconditionally. -/
def new : Except DataError (DecodeMode × List RW) :=
  Except.ok (DecodeMode.NoDecode, [])

/-- `MAX7219::from_pins` (src/lib.rs lines 448-450): wrap the pin
connector in `new`; nothing else happens before the driver is returned. -/
def from_pins : Except DataError (DecodeMode × List RW) := new

/-- `MAX7219::from_spi` (src/lib.rs lines 473-475). -/
def from_spi : Except DataError (DecodeMode × List RW) := new

/-- `MAX7219::from_spi_cs` (src/lib.rs lines 500-502). -/
def from_spi_cs : Except DataError (DecodeMode × List RW) := new

/-- The register-write sequence `init` actually issues for D devices:
per device in ascending order DisplayTest ← 0, ScanLimit ← 7, no
decode-mode write (the constructor's cache already holds NoDecode), the
eight digit registers ← 0; after the loop Power ← 0 to every address. -/
def initExpected (D : Nat) : List RW :=
  ((List.range D).map fun i =>
    ⟨i, 0x0F, 0⟩ :: ⟨i, 0x0B, 0x07⟩ ::
      ((List.range' 1 8).map fun r => (⟨i, r, 0⟩ : RW))).flatten ++
  ((List.range D).map fun i => ⟨i, 0x0C, 0⟩)

theorem frameBuffer_eq (D : Nat) : frameBuffer D = List.replicate (2 * D) 0 := by
  induction D with
  | zero => rfl
  | succ n ih =>
    simp only [frameBuffer, List.replicate_succ, List.flatten_cons] at *
    rw [ih]
    have : 2 * (n + 1) = (2 * n).succ.succ := by omega
    rw [this, List.replicate_succ, List.replicate_succ]
    rfl

theorem length_frameBuffer (D : Nat) : (frameBuffer D).length = 2 * D := by
  rw [frameBuffer_eq]; simp

/-- Helper: for an in-range address the frame of `write_raw_byte` is the
zeroed buffer with the two stores applied. -/
theorem write_raw_frame_some (D addr h d : Nat) (ha : addr < D) :
    write_raw_frame D addr h d =
      some (((List.replicate (2 * D) 0).set (addr * 2) h).set (addr * 2 + 1) d) := by
  have h1 : addr * 2 < (frameBuffer D).length := by rw [length_frameBuffer]; omega
  have h2 : addr * 2 + 1 < ((frameBuffer D).set (addr * 2) h).length := by
    rw [List.length_set, length_frameBuffer]; omega
  have e1 : setAt (frameBuffer D) (addr * 2) h =
      some ((List.replicate (2 * D) 0).set (addr * 2) h) := by
    rw [setAt, if_pos h1, frameBuffer_eq]
  rw [write_raw_frame, e1, Option.some_bind, setAt,
    if_pos (by rw [frameBuffer_eq] at h2; exact h2)]

/-- Helper: the contents of a zeroed buffer of length `n` after the two
stores at `2·addr` and `2·addr + 1`. -/
theorem set_set_replicate_getElem (n addr h d i : Nat) (ha : 2 * addr + 1 < n)
    (hi : i < (((List.replicate n 0).set (addr * 2) h).set (addr * 2 + 1) d).length) :
    (((List.replicate n 0).set (addr * 2) h).set (addr * 2 + 1) d)[i] =
      if i = 2 * addr then h else if i = 2 * addr + 1 then d else 0 := by
  rw [List.getElem_set, List.getElem_set, List.getElem_replicate]
  by_cases h1 : i = 2 * addr
  · rw [if_neg (by omega), if_pos (by omega), if_pos h1]
  · by_cases h2 : i = 2 * addr + 1
    · rw [if_pos (by omega), if_neg h1, if_pos h2]
    · rw [if_neg (by omega), if_neg (by omega), if_neg h1, if_neg h2]

/-- `List.getD` form of `set_set_replicate_getElem`. -/
theorem set_set_replicate_getD (n addr h d i : Nat) (ha : 2 * addr + 1 < n)
    (hi : i < n) :
    (((List.replicate n 0).set (addr * 2) h).set (addr * 2 + 1) d).getD i 0 =
      if i = 2 * addr then h else if i = 2 * addr + 1 then d else 0 := by
  rw [List.getD_eq_getElem _ _ (by simp; omega)]
  exact set_set_replicate_getElem n addr h d i ha (by simp; omega)

/-- Helper: for an in-range address on a chain of at most 8 devices, the
bytes the pin connector shifts out coincide with the 2·D-byte frame of
`write_raw_byte`. -/
theorem pin_write_raw_frame_some (devices addr h d : Nat) (ha : addr < devices)
    (hd : devices ≤ 8) :
    pin_write_raw_frame devices addr h d =
      some (((List.replicate (2 * devices) 0).set (addr * 2) h).set
        (addr * 2 + 1) d) := by
  have h1 : addr * 2 < (List.replicate (MAX_DISPLAYS * 2) (0 : Nat)).length := by
    rw [List.length_replicate]; simp [MAX_DISPLAYS]; omega
  have h2 : addr * 2 + 1 <
      ((List.replicate (MAX_DISPLAYS * 2) (0 : Nat)).set (addr * 2) h).length := by
    rw [List.length_set, List.length_replicate]; simp [MAX_DISPLAYS]; omega
  rw [pin_write_raw_frame, setAt, if_pos h1, Option.some_bind, setAt, if_pos h2]
  show some _ = some _
  congr 1
  apply List.ext_getElem
  · simp [MAX_DISPLAYS]; omega
  · intro i hi1 hi2
    simp only [List.getElem_take, List.getElem_set, List.getElem_replicate]

/-- C1: for every chain length D in 1..=8 and every address addr < D,
`write_raw_byte(addr, header, data)` builds and transmits a frame of
exactly 2·D bytes that is zero everywhere except bytes 2·addr and
2·addr + 1, which hold `header` and `data` respectively; the legacy pin
connector (`PinConnector::write_raw`) shifts out the same bytes. -/
theorem C1_write_raw_byte_frame (D addr h d : Nat) (hD1 : 1 ≤ D) (hD8 : D ≤ 8)
    (ha : addr < D) :
    ∃ f, write_raw_frame D addr h d = some f ∧
      pin_write_raw_frame D addr h d = some f ∧
      f.length = 2 * D ∧
      f.getD (2 * addr) 0 = h ∧
      f.getD (2 * addr + 1) 0 = d ∧
      ∀ i, i < 2 * D → i ≠ 2 * addr → i ≠ 2 * addr + 1 → f.getD i 0 = 0 := by
  refine ⟨((List.replicate (2 * D) 0).set (addr * 2) h).set (addr * 2 + 1) d,
    write_raw_frame_some D addr h d ha,
    pin_write_raw_frame_some D addr h d ha hD8, ?_, ?_, ?_, ?_⟩
  · rw [List.length_set, List.length_set, List.length_replicate]
  · rw [set_set_replicate_getD (2 * D) addr h d (2 * addr) (by omega) (by omega),
      if_pos rfl]
  · rw [set_set_replicate_getD (2 * D) addr h d (2 * addr + 1) (by omega) (by omega),
      if_neg (by omega), if_pos rfl]
  · intro i hi hne1 hne2
    rw [set_set_replicate_getD (2 * D) addr h d i (by omega) hi,
      if_neg hne1, if_neg hne2]

/-- Witness for C1 at D = 2, addr = 1, header = 11, data = 7. -/
theorem C1_write_raw_byte_frame_witness :
    ∃ f, write_raw_frame 2 1 11 7 = some f ∧
      pin_write_raw_frame 2 1 11 7 = some f ∧
      f.length = 2 * 2 ∧
      f.getD (2 * 1) 0 = 11 ∧
      f.getD (2 * 1 + 1) 0 = 7 ∧
      ∀ i, i < 2 * 2 → i ≠ 2 * 1 → i ≠ 2 * 1 + 1 → f.getD i 0 = 0 :=
  C1_write_raw_byte_frame 2 1 11 7 (by decide) (by decide) (by decide)

/-- C10: for every chain length D and address addr ≥ D, the store at
buffer index 2·addr is out of bounds of the 2·D-byte frame buffer of
`write_raw_byte` — a panic in the Rust code, the `none` branch of this
total embedding — so the call neither completes nor surfaces a
`DataError` value. -/
theorem C10_out_of_range_panics (D addr h d : Nat) (hge : D ≤ addr) :
    write_raw_frame D addr h d = none := by
  have h1 : ¬ addr * 2 < (frameBuffer D).length := by
    rw [length_frameBuffer]; omega
  rw [write_raw_frame, setAt, if_neg h1]
  rfl

/-- Witness for C10 at D = 2, addr = 2. -/
theorem C10_out_of_range_panics_witness : write_raw_frame 2 2 9 0 = none :=
  C10_out_of_range_panics 2 2 9 0 (by decide)

/-- C8 counterexample: nothing clamps the chain length to 8.  With D = 9
devices, `write_raw_byte(8, 1, 2)` succeeds and builds a frame of
18 bytes — more than the claimed maximum of 2 × 8 = 16. -/
theorem C8_counterexample :
    (write_raw_frame 9 8 1 2).map List.length = some 18 := by
  rfl

/-- C8 amended: the device count is not clamped.  The chain length D is
used exactly as given at construction, and for every D and every in-range
address the built frame has exactly 2·D bytes, with no upper bound of 8
enforced anywhere. -/
theorem C8_amended_frame_size (D addr h d : Nat) (ha : addr < D) :
    (write_raw_frame D addr h d).map List.length = some (2 * D) := by
  rw [write_raw_frame_some D addr h d ha]
  simp

/-- Witness for the amended C8 at the unclamped chain length D = 9. -/
theorem C8_amended_frame_size_witness :
    (write_raw_frame 9 8 1 2).map List.length = some (2 * 9) :=
  C8_amended_frame_size 9 8 1 2 (by decide)

/-- C9 counterexample: the BCD table has no single designated "unknown"
output — the undefined input bytes 120 ('x') and 122 ('z') are passed
through unchanged and therefore map to two different outputs. -/
theorem C9_counterexample :
    120 ∉ bcdDefined ∧ 122 ∉ bcdDefined ∧
      ¬ ∃ u, bcd_byte 120 = u ∧ bcd_byte 122 = u := by
  refine ⟨by decide, by decide, ?_⟩
  rintro ⟨u, h1, h2⟩
  rw [show bcd_byte 120 = 120 by rfl] at h1
  rw [show bcd_byte 122 = 122 by rfl] at h2
  omega

/-- C9 amended: both tables are pure functions; every input byte outside
the defined entries of the segment table maps to the fixed '?' pattern
0xE5 (with or without the dot flag, whose bit the pattern already
contains), while the BCD table passes every undefined input byte through
unchanged rather than mapping it to a fixed pattern. -/
theorem C9_amended_tables (b : Nat) (hb : b < 256) :
    (b ∉ ssbDefined → ssb_byte b true = 0xE5 ∧ ssb_byte b false = 0xE5) ∧
      (b ∉ bcdDefined → bcd_byte b = b) := by
  revert b
  set_option maxRecDepth 8000 in decide

/-- Witness for the amended C9 at the undefined input byte 63 ('?'). -/
theorem C9_amended_tables_witness :
    ssb_byte 63 true = 0xE5 ∧ ssb_byte 63 false = 0xE5 :=
  (C9_amended_tables 63 (by decide)).1 (by decide)

/-- Helper: after `set_decode_mode` the cached mode is the requested one,
whether or not a write was issued. -/
theorem set_decode_mode_fst (dm : DecodeMode) (a : Nat) (m : DecodeMode) :
    (set_decode_mode dm a m).1 = m := by
  by_cases h : dm = m <;> simp [set_decode_mode, h]

/-- Helper: any write `set_decode_mode` issues goes to the address it was
given and targets the DecodeMode register. -/
theorem set_decode_mode_writes (dm : DecodeMode) (a : Nat) (m : DecodeMode) :
    ∀ w ∈ (set_decode_mode dm a m).2,
      w.addr = a ∧ w.header = Command.DecodeMode.toByte := by
  intro w hw
  by_cases h : dm = m
  · simp [set_decode_mode, h] at hw
  · simp [set_decode_mode, h, write_command] at hw
    subst hw
    exact ⟨rfl, rfl⟩

/-- Helper: every write of the `write_str` digit loop goes to `addr`. -/
theorem write_str_loop_addr (a dots : Nat) (s : List Nat) :
    ∀ digit dp, ∀ w ∈ write_str_loop a dots s digit dp, w.addr = a := by
  induction s with
  | nil => intro digit dp w hw; simp [write_str_loop] at hw
  | cons b rest ih =>
    intro digit dp w hw
    rw [write_str_loop] at hw
    rcases List.mem_cons.mp hw with h | h
    · rw [h]
    · exact ih _ _ w h

/-- Helper: every write of the `write_bcd` digit loop goes to `addr`. -/
theorem write_bcd_loop_addr (a : Nat) (s : List Nat) :
    ∀ digit, ∀ w ∈ write_bcd_loop a s digit, w.addr = a := by
  induction s with
  | nil => intro digit w hw; simp [write_bcd_loop] at hw
  | cons b rest ih =>
    intro digit w hw
    rw [write_bcd_loop] at hw
    rcases List.mem_cons.mp hw with h | h
    · rw [h]
    · exact ih _ w h

/-- Helper: every write of the `write_digits` digit loop goes to `addr`. -/
theorem write_digits_loop_addr (a : Nat) (s : List Nat) :
    ∀ digit, ∀ w ∈ write_digits_loop a s digit, w.addr = a := by
  induction s with
  | nil => intro digit w hw; simp [write_digits_loop] at hw
  | cons b rest ih =>
    intro digit w hw
    rw [write_digits_loop] at hw
    rcases List.mem_cons.mp hw with h | h
    · rw [h]
    · exact ih _ w h

/-- Helper: one `init` iteration from cached mode NoDecode stays at
NoDecode and issues test-off, scan-limit 7 and the eight digit clears —
the decode-mode step writes nothing. -/
theorem init_device_NoDecode (i : Nat) :
    init_device DecodeMode.NoDecode i =
      (DecodeMode.NoDecode,
        ⟨i, 0x0F, 0⟩ :: ⟨i, 0x0B, 0x07⟩ ::
          ((List.range' 1 8).map fun r => (⟨i, r, 0⟩ : RW))) := by
  rfl

/-- Helper: the whole `init` run from the constructor's cached mode. -/
theorem init_eq (D : Nat) :
    init D DecodeMode.NoDecode = (DecodeMode.NoDecode, initExpected D) := by
  have hfold : ∀ n : Nat,
      (List.range n).foldl
        (fun acc i => let s := init_device acc.1 i; (s.1, acc.2 ++ s.2))
        (DecodeMode.NoDecode, ([] : List RW)) =
      (DecodeMode.NoDecode,
        ((List.range n).map fun i =>
          ⟨i, 0x0F, 0⟩ :: ⟨i, 0x0B, 0x07⟩ ::
            ((List.range' 1 8).map fun r => (⟨i, r, 0⟩ : RW))).flatten) := by
    intro n
    induction n with
    | zero => rfl
    | succ m ih =>
      rw [List.range_succ, List.foldl_append, ih, List.foldl_cons, List.foldl_nil,
        List.map_append, List.flatten_append]
      simp [init_device_NoDecode]
  rw [init, hfold, initExpected, power_off]
  rfl

/-- C2 counterexample: on a single-device chain the whole initialization
trace contains no write to the DecodeMode register (header 0x09): the
claimed actual register write DecodeMode ← NoDecode is skipped because
the constructor already cached NoDecode. -/
theorem C2_counterexample :
    ¬ ∃ w ∈ (init 1 DecodeMode.NoDecode).2,
        w.header = Command.DecodeMode.toByte := by
  decide

/-- C2 amended: initializing a driver for D chained devices issues, per
device address in ascending order 0..D: DisplayTest ← 0, ScanLimit ← 7,
a `set_decode_mode(i, NoDecode)` call that issues no register write (the
constructor's cached mode is already NoDecode), then the 8 digit
registers ← 0; after the per-device loop, Power ← 0 is written to every
address. -/
theorem C2_amended_init_sequence (D : Nat) :
    init D DecodeMode.NoDecode = (DecodeMode.NoDecode, initExpected D) :=
  init_eq D

/-- C3 counterexample: `write_str` at device address 1 (starting from
cached mode CodeBDigits7-0) issues its decode-mode force write at the
hard-coded address 0, not at address 1. -/
theorem C3_counterexample :
    ∃ w ∈ (write_str DecodeMode.CodeBDigits7_0 1
        [48, 49, 50, 51, 52, 53, 54, 55] 0).2, w.addr ≠ 1 := by
  decide

/-- C3 amended: for every operation in the table, every digit or command
write is issued at the address given to the operation, except that the
decode-mode force and restore writes inside `write_str`, `write_bcd` and
`write_digits` are always issued at the hard-coded address 0. -/
theorem C3_amended_addressing (dm : DecodeMode) (addr intensity dots : Nat)
    (s bcd raw : List Nat) (is_on : Bool) :
    (∀ w ∈ (write_str dm addr s dots).2,
        w.addr = addr ∨ (w.addr = 0 ∧ w.header = Command.DecodeMode.toByte)) ∧
    (∀ w ∈ (write_bcd dm addr bcd).2,
        w.addr = addr ∨ (w.addr = 0 ∧ w.header = Command.DecodeMode.toByte)) ∧
    (∀ w ∈ (write_digits dm addr raw).2,
        w.addr = addr ∨ (w.addr = 0 ∧ w.header = Command.DecodeMode.toByte)) ∧
    (∀ w ∈ (set_intensity dm addr intensity).2, w.addr = addr) ∧
    (∀ w ∈ (clear_display dm addr).2, w.addr = addr) ∧
    (∀ w ∈ (test dm addr is_on).2, w.addr = addr) := by
  refine ⟨?_, ?_, ?_, ?_, ?_, ?_⟩
  · intro w hw
    rw [write_str] at hw
    rcases List.mem_append.mp hw with h | h
    · rcases List.mem_append.mp h with h | h
      · exact Or.inr ⟨(set_decode_mode_writes _ _ _ w h).1,
          (set_decode_mode_writes _ _ _ w h).2⟩
      · exact Or.inl (write_str_loop_addr addr dots s _ _ w h)
    · exact Or.inr ⟨(set_decode_mode_writes _ _ _ w h).1,
        (set_decode_mode_writes _ _ _ w h).2⟩
  · intro w hw
    rw [write_bcd] at hw
    rcases List.mem_append.mp hw with h | h
    · rcases List.mem_append.mp h with h | h
      · exact Or.inr ⟨(set_decode_mode_writes _ _ _ w h).1,
          (set_decode_mode_writes _ _ _ w h).2⟩
      · exact Or.inl (write_bcd_loop_addr addr bcd _ w h)
    · exact Or.inr ⟨(set_decode_mode_writes _ _ _ w h).1,
        (set_decode_mode_writes _ _ _ w h).2⟩
  · intro w hw
    rw [write_digits] at hw
    rcases List.mem_append.mp hw with h | h
    · rcases List.mem_append.mp h with h | h
      · exact Or.inr ⟨(set_decode_mode_writes _ _ _ w h).1,
          (set_decode_mode_writes _ _ _ w h).2⟩
      · exact Or.inl (write_digits_loop_addr addr raw _ w h)
    · exact Or.inr ⟨(set_decode_mode_writes _ _ _ w h).1,
        (set_decode_mode_writes _ _ _ w h).2⟩
  · intro w hw
    simp [set_intensity, write_command] at hw
    rw [hw]
  · intro w hw
    simp only [clear_display, List.mem_map] at hw
    obtain ⟨r, _, hr⟩ := hw
    rw [← hr]
  · intro w hw
    simp [test, write_command] at hw
    rw [hw]

/-- Witness for the amended C3: the first digit write of a concrete
`write_str` call at address 1 is at address 1. -/
theorem C3_amended_addressing_witness :
    (⟨1, 8, 126⟩ : RW).addr = 1 ∨
      ((⟨1, 8, 126⟩ : RW).addr = 0 ∧
        (⟨1, 8, 126⟩ : RW).header = Command.DecodeMode.toByte) :=
  (C3_amended_addressing DecodeMode.CodeBDigits7_0 1 3 0
      [48, 49, 50, 51, 52, 53, 54, 55] [] [] true).1
    ⟨1, 8, 126⟩ (by decide)

/-- C4 counterexample: `from_pins` returns Ok having issued no write at
all, while the initialization sequence for even a single device is
nonempty — construction neither runs `init` nor can it fail. -/
theorem C4_counterexample :
    from_pins = Except.ok (DecodeMode.NoDecode, ([] : List RW)) ∧
      (init 1 DecodeMode.NoDecode).2 ≠ [] := by
  exact ⟨rfl, by decide⟩

/-- C4 amended: construction (`from_pins`, `from_spi`, `from_spi_cs`)
only stores the connector and the initial cached decode mode NoDecode; it
issues no register writes, always succeeds, and does not run the
initialization sequence — `init` is a separate public method the caller
must invoke, and its sequence is nonempty for every nonempty chain. -/
theorem C4_amended_construction :
    from_pins = Except.ok (DecodeMode.NoDecode, ([] : List RW)) ∧
    from_spi = Except.ok (DecodeMode.NoDecode, ([] : List RW)) ∧
    from_spi_cs = Except.ok (DecodeMode.NoDecode, ([] : List RW)) ∧
    ∀ D, 1 ≤ D → (init D DecodeMode.NoDecode).2 ≠ [] := by
  refine ⟨rfl, rfl, rfl, ?_⟩
  intro D hD hcon
  rw [init_eq] at hcon
  have hlen : D ≤ (initExpected D).length := by
    rw [initExpected, List.length_append, List.length_map, List.length_range]
    omega
  rw [show (DecodeMode.NoDecode, initExpected D).2 = initExpected D from rfl]
    at hcon
  rw [hcon] at hlen
  simp at hlen
  omega

/-- Witness for the amended C4 at chain length 1. -/
theorem C4_amended_construction_witness :
    (init 1 DecodeMode.NoDecode).2 ≠ [] :=
  C4_amended_construction.2.2.2 1 (by decide)

/-- C5: evaluation of the integer formatter.  The spec examples hold
(`0` gives seven spaces then "0", `-5` gives six spaces then "-5"), but
at the boundary input 99999999 — whose 8-character decimal representation
fits the display — the code formats right-justified "Err", because the
accepted range `-9999999..99999999` excludes its upper bound. -/
theorem C5_write_integer_boundary :
    write_integer DecodeMode.NoDecode 0 0 =
      some (write_str DecodeMode.NoDecode 0
        [32, 32, 32, 32, 32, 32, 32, 48] 0) ∧
    write_integer DecodeMode.NoDecode 0 (-5) =
      some (write_str DecodeMode.NoDecode 0
        [32, 32, 32, 32, 32, 32, 45, 53] 0) ∧
    (base_10_digits 99999999).length = 8 ∧
    write_integer DecodeMode.NoDecode 0 99999999 =
      some (write_str DecodeMode.NoDecode 0
        [32, 32, 32, 32, 32, 69, 114, 114] 0) := by
  refine ⟨?_, ?_, ?_, ?_⟩ <;> decide

/-- C6 counterexample: from the constructor's initial cached mode
NoDecode, two consecutive `set_decode_mode(0, NoDecode)` calls issue zero
register writes in total, not exactly one. -/
theorem C6_counterexample :
    ((set_decode_mode DecodeMode.NoDecode 0 DecodeMode.NoDecode).2 ++
        (set_decode_mode
          (set_decode_mode DecodeMode.NoDecode 0 DecodeMode.NoDecode).1 0
          DecodeMode.NoDecode).2).length ≠ 1 := by
  decide

/-- C6 amended: two consecutive `set_decode_mode` calls with the same
mode issue at most one register write — exactly one when the cached mode
differed from the requested mode beforehand and zero when it already
matched — and the second call always issues none. -/
theorem C6_amended_idempotent (dm : DecodeMode) (addr : Nat) (mode : DecodeMode) :
    (set_decode_mode (set_decode_mode dm addr mode).1 addr mode).2 = [] ∧
    ((set_decode_mode dm addr mode).2 ++
        (set_decode_mode (set_decode_mode dm addr mode).1 addr mode).2).length =
      (if dm = mode then 0 else 1) := by
  by_cases h : dm = mode <;> simp [set_decode_mode, h, write_command]

/-- C7: `write_str` and `write_bcd` leave the cached decode mode equal to
its value before the call, for every prior mode: they save it, force a
temporary mode for the digit writes and restore the saved mode. -/
theorem C7_decode_mode_restored (dm : DecodeMode) (addr dots : Nat)
    (s bcd : List Nat) :
    (write_str dm addr s dots).1 = dm ∧ (write_bcd dm addr bcd).1 = dm := by
  constructor <;> simp [write_str, write_bcd, set_decode_mode_fst]
